import Mathlib

/-!
Shallow embedding of the rocket-launch simulator: the stage strategies and
`StageFactory` (`stages.ts`), the `RocketSystem` state machine
(`rocketSystem.ts`), and the command layer (`commands.ts`).

Numbers (`fuel`, `altitude`, `speed`) are modelled as rationals; all constants
of the program (1, 0.5, 10, 15, 1000, 800, 160, 5, 30, 100) and all reachable
values are exact in this representation.  Exceptions are modelled by an error
component in the result: a function that can throw returns the mutated system
together with `Option SimError`, where the system component carries exactly the
field mutations the TypeScript object has undergone when the function returns
or the exception escapes.  Logging and observer notification have no effect on
the simulator state and are omitted.
-/

/-- `MissionStatus` enum from `types.ts`. -/
inductive MissionStatus
| PRE_LAUNCH
| CHECKS_IN_PROGRESS
| READY_TO_LAUNCH
| IN_FLIGHT
| ORBIT_ACHIEVED
| MISSION_FAILED
deriving DecidableEq, Repr

/-- Exception taxonomy from `exceptions.ts`: `InvalidStateException` and the
base `SimulatorException` (the two flavours thrown by the code modelled
here). -/
inductive SimError
| invalidState (msg : String)
| simulator (msg : String)
deriving DecidableEq, Repr

/-- The two concrete stage strategies of `stages.ts` (`Stage1Strategy`,
`Stage2Strategy`).  Each is a stateless bundle of constants, so a two-value
type with accessor functions is a faithful rendering. -/
inductive StageStrategy
| stage1
| stage2
deriving DecidableEq, Repr

/-- `getFuelConsumptionRate`: 1.0 %/s for stage 1, 0.5 %/s for stage 2. -/
def StageStrategy.getFuelConsumptionRate : StageStrategy → ℚ
| .stage1 => 1
| .stage2 => 0.5

/-- `getAltitudeIncrement`: 10 km/s for stage 1, 15 km/s for stage 2. -/
def StageStrategy.getAltitudeIncrement : StageStrategy → ℚ
| .stage1 => 10
| .stage2 => 15

/-- `getSpeedIncrement`: 1000 km/h per s for stage 1, 800 for stage 2. -/
def StageStrategy.getSpeedIncrement : StageStrategy → ℚ
| .stage1 => 1000
| .stage2 => 800

/-- `getStageName`. -/
def StageStrategy.getStageName : StageStrategy → String
| .stage1 => "1"
| .stage2 => "2"

/-- `shouldSeparate`: stage 1 separates at fuel ≤ 30, stage 2 never. -/
def StageStrategy.shouldSeparate : StageStrategy → ℚ → Bool
| .stage1, fuel => decide (fuel ≤ 30)
| .stage2, _ => false

/-- `StageFactory.createStage` from `stages.ts`: stage 1 and 2 exist, every
other stage number throws `SimulatorException ("Unknown stage: " ++ n)`. -/
def StageFactory.createStage (stageNumber : Int) : Except SimError StageStrategy :=
  if stageNumber = 1 then Except.ok StageStrategy.stage1
  else if stageNumber = 2 then Except.ok StageStrategy.stage2
  else Except.error (SimError.simulator ("Unknown stage: " ++ toString stageNumber))

/-- `RocketState` from `rocketSystem.ts`. -/
structure RocketState where
  stage : Int
  fuel : ℚ
  altitude : ℚ
  speed : ℚ
  status : MissionStatus
deriving DecidableEq, Repr

/-- The constructor defaults of `RocketState`. -/
def RocketState.initial : RocketState :=
  { stage := 0, fuel := 100, altitude := 0, speed := 0, status := MissionStatus.PRE_LAUNCH }

/-- `RocketSystem`: the rocket state plus the current stage strategy
(`null` before launch).  Observers and the logger carry no simulator state. -/
structure RocketSystem where
  state : RocketState
  currentStageStrategy : Option StageStrategy
deriving DecidableEq, Repr

/-- A freshly constructed `RocketSystem`. -/
def RocketSystem.initial : RocketSystem :=
  { state := RocketState.initial, currentStageStrategy := none }

/-- `ORBIT_ALTITUDE` constant (km). -/
def ORBIT_ALTITUDE : ℚ := 160

/-- `MIN_FUEL_FOR_ORBIT` constant (%). -/
def MIN_FUEL_FOR_ORBIT : ℚ := 5

/-- Result of one `updateFlightParameters` step: `cont` models `return true`,
`halt` models `return false`, `err e` models an exception escaping the step. -/
inductive StepOutcome
| cont
| halt
| err (e : SimError)
deriving DecidableEq, Repr

/-- `RocketSystem.separateStage`: increments the stage counter, then asks the
factory for the new stage's strategy.  The counter increment happens before
the factory call, so when the factory throws, the returned system already has
the incremented counter and the old strategy. -/
def RocketSystem.separateStage (sys : RocketSystem) : RocketSystem × Option SimError :=
  let newStage := sys.state.stage + 1
  match StageFactory.createStage newStage with
  | Except.ok strat =>
      ({ state := { sys.state with stage := newStage }, currentStageStrategy := some strat }, none)
  | Except.error e =>
      ({ state := { sys.state with stage := newStage },
         currentStageStrategy := sys.currentStageStrategy }, some e)

/-- `RocketSystem.updateFlightParameters`, one one-second step:
fuel decrement, exhaustion check (clamp + MISSION_FAILED + halt), altitude and
speed increments, orbit check (ORBIT_ACHIEVED + halt), separation check, and
otherwise continue. -/
def RocketSystem.updateFlightParameters (sys : RocketSystem) : RocketSystem × StepOutcome :=
  match sys.currentStageStrategy with
  | none => (sys, StepOutcome.halt)
  | some strat =>
    let fuel1 := sys.state.fuel - strat.getFuelConsumptionRate
    if fuel1 ≤ 0 then
      ({ sys with state := { sys.state with fuel := 0, status := MissionStatus.MISSION_FAILED } },
       StepOutcome.halt)
    else
      let st1 : RocketState :=
        { sys.state with
          fuel := fuel1,
          altitude := sys.state.altitude + strat.getAltitudeIncrement,
          speed := sys.state.speed + strat.getSpeedIncrement }
      if ORBIT_ALTITUDE ≤ st1.altitude ∧ MIN_FUEL_FOR_ORBIT ≤ fuel1 then
        ({ sys with state := { st1 with status := MissionStatus.ORBIT_ACHIEVED } },
         StepOutcome.halt)
      else if strat.shouldSeparate fuel1 then
        match RocketSystem.separateStage { sys with state := st1 } with
        | (sys', none) => (sys', StepOutcome.cont)
        | (sys', some e) => (sys', StepOutcome.err e)
      else ({ sys with state := st1 }, StepOutcome.cont)

/-- The `for` loop inside `advanceTime`: up to `n` steps, stopping when a step
returns `false` (halt) and aborting with the error when a step throws. -/
def RocketSystem.advanceTimeLoop : Nat → RocketSystem → RocketSystem × Option SimError
| 0, sys => (sys, none)
| n + 1, sys =>
  match RocketSystem.updateFlightParameters sys with
  | (sys', StepOutcome.cont) => RocketSystem.advanceTimeLoop n sys'
  | (sys', StepOutcome.halt) => (sys', none)
  | (sys', StepOutcome.err e) => (sys', some e)

/-- `RocketSystem.advanceTime`: requires IN_FLIGHT (the guard throws before any
mutation), then runs the per-second loop.  A non-positive `seconds` runs the
loop zero times, matching `for (let i = 0; i < seconds; i++)`. -/
def RocketSystem.advanceTime (seconds : Int) (sys : RocketSystem) : RocketSystem × Option SimError :=
  if sys.state.status = MissionStatus.IN_FLIGHT then
    RocketSystem.advanceTimeLoop seconds.toNat sys
  else (sys, some (SimError.invalidState ("Rocket is not in flight")))

/-- `RocketSystem.performPreLaunchChecks`: sets CHECKS_IN_PROGRESS, logs five
always-passing subsystem checks (the 10% transient fault only logs and is
unconditionally recovered), then sets READY_TO_LAUNCH.  There is no status
guard; the net state effect from any starting status is
`status := READY_TO_LAUNCH`, and no other field changes.  Randomness affects
only log output, never the state. -/
def RocketSystem.performPreLaunchChecks (sys : RocketSystem) : RocketSystem :=
  { sys with state := { sys.state with status := MissionStatus.READY_TO_LAUNCH } }

/-- `RocketSystem.launch`: requires READY_TO_LAUNCH (the guard throws before any
mutation); on success sets stage to 1, status to IN_FLIGHT, and installs the
factory's stage-1 strategy. -/
def RocketSystem.launch (sys : RocketSystem) : RocketSystem × Option SimError :=
  if sys.state.status = MissionStatus.READY_TO_LAUNCH then
    ({ state := { sys.state with stage := 1, status := MissionStatus.IN_FLIGHT },
       currentStageStrategy := (StageFactory.createStage 1).toOption }, none)
  else (sys, some (SimError.invalidState ("Cannot launch: Pre-launch checks not completed")))

/-- The three concrete command classes of `commands.ts`:
`StartChecksCommand`, `LaunchCommand`, `FastForwardCommand (seconds)`. -/
inductive Command
| startChecksCommand
| launchCommand
| fastForwardCommand (seconds : Int)
deriving DecidableEq, Repr

/-- `getDescription` of each command class. -/
def Command.getDescription : Command → String
| .startChecksCommand => "Start pre-launch system checks"
| .launchCommand => "Launch the rocket"
| .fastForwardCommand seconds => "Fast forward " ++ toString seconds ++ " seconds"

/-- `canExecute` of each command class, a pure predicate on the rocket state. -/
def Command.canExecute (c : Command) (sys : RocketSystem) : Bool :=
  match c with
  | .startChecksCommand => decide (sys.state.status = MissionStatus.PRE_LAUNCH)
  | .launchCommand => decide (sys.state.status = MissionStatus.READY_TO_LAUNCH)
  | .fastForwardCommand seconds =>
      decide (sys.state.status = MissionStatus.IN_FLIGHT) && decide (0 < seconds)

/-- `execute` of each command class: delegates into `RocketSystem`. -/
def Command.execute (c : Command) (sys : RocketSystem) : RocketSystem × Option SimError :=
  match c with
  | .startChecksCommand => (RocketSystem.performPreLaunchChecks sys, none)
  | .launchCommand => RocketSystem.launch sys
  | .fastForwardCommand seconds => RocketSystem.advanceTime seconds sys

/-- `CommandInvoker`: holds the in-memory command history. -/
structure CommandInvoker where
  commandHistory : List Command
deriving DecidableEq, Repr

/-- `CommandInvoker.executeCommand`: rejects (invalid-state error, no record, no
execution) when `canExecute` is false; otherwise executes and appends to the
history only when `execute` did not throw, re-throwing its error otherwise.
The result carries the invoker, the rocket system as left by the call, and the
escaping error if any. -/
def CommandInvoker.executeCommand (inv : CommandInvoker) (sys : RocketSystem)
    (c : Command) : CommandInvoker × RocketSystem × Option SimError :=
  if c.canExecute sys then
    match c.execute sys with
    | (sys', none) => ({ commandHistory := inv.commandHistory ++ [c] }, sys', none)
    | (sys', some e) => (inv, sys', some e)
  else (inv, sys, some (SimError.invalidState ("Cannot execute command: " ++ c.getDescription)))

/-- `CommandInvoker.getHistory`: the stored history (the TypeScript code hands
out a fresh copy of the array; with value semantics the copy is the list
itself). -/
def CommandInvoker.getHistory (inv : CommandInvoker) : List Command :=
  inv.commandHistory

/-- States of the `RocketSystem` reachable from the freshly constructed system
through the public mutating operations. -/
inductive Reachable : RocketSystem → Prop
| init : Reachable RocketSystem.initial
| checks (sys : RocketSystem) : Reachable sys →
    Reachable (RocketSystem.performPreLaunchChecks sys)
| liftoff (sys : RocketSystem) : Reachable sys →
    Reachable (RocketSystem.launch sys).1
| advance (sys : RocketSystem) (seconds : Int) : Reachable sys →
    Reachable (RocketSystem.advanceTime seconds sys).1

/-- The stage/strategy coupling maintained by every reachable state: the stage
counter matches the installed strategy (0 before launch). -/
def StageInv (sys : RocketSystem) : Prop :=
  match sys.currentStageStrategy with
  | none => sys.state.stage = 0
  | some StageStrategy.stage1 => sys.state.stage = 1
  | some StageStrategy.stage2 => sys.state.stage = 2

/-! ### Helper lemmas about single flight steps -/

theorem rate_pos (strat : StageStrategy) : 0 < strat.getFuelConsumptionRate := by
  cases strat <;> norm_num [StageStrategy.getFuelConsumptionRate]

theorem altitudeIncrement_nonneg (strat : StageStrategy) : 0 ≤ strat.getAltitudeIncrement := by
  cases strat <;> norm_num [StageStrategy.getAltitudeIncrement]

theorem speedIncrement_nonneg (strat : StageStrategy) : 0 ≤ strat.getSpeedIncrement := by
  cases strat <;> norm_num [StageStrategy.getSpeedIncrement]

theorem separateStage_fields (sys : RocketSystem) :
    (RocketSystem.separateStage sys).1.state.stage = sys.state.stage + 1 ∧
    (RocketSystem.separateStage sys).1.state.fuel = sys.state.fuel ∧
    (RocketSystem.separateStage sys).1.state.altitude = sys.state.altitude ∧
    (RocketSystem.separateStage sys).1.state.speed = sys.state.speed ∧
    (RocketSystem.separateStage sys).1.state.status = sys.state.status := by
  cases h : StageFactory.createStage (sys.state.stage + 1) <;>
    simp [RocketSystem.separateStage, h]

/-- Exhaustive case analysis of one `updateFlightParameters` step, mirroring
the five control paths of the source: missing strategy, fuel exhaustion,
orbit achievement, stage separation (factory success or factory error), and
plain continuation. -/
theorem updateFlightParameters_cases (sys : RocketSystem) :
    (sys.currentStageStrategy = none ∧
      RocketSystem.updateFlightParameters sys = (sys, StepOutcome.halt)) ∨
    ∃ strat, sys.currentStageStrategy = some strat ∧
      ((sys.state.fuel - strat.getFuelConsumptionRate ≤ 0 ∧
        RocketSystem.updateFlightParameters sys =
          ({ sys with
              state := { sys.state with
                          fuel := 0,
                          status := MissionStatus.MISSION_FAILED } },
            StepOutcome.halt)) ∨
       (¬ sys.state.fuel - strat.getFuelConsumptionRate ≤ 0 ∧
        (ORBIT_ALTITUDE ≤ sys.state.altitude + strat.getAltitudeIncrement ∧
         MIN_FUEL_FOR_ORBIT ≤ sys.state.fuel - strat.getFuelConsumptionRate) ∧
        RocketSystem.updateFlightParameters sys =
          ({ sys with
              state := { sys.state with
                          fuel := sys.state.fuel - strat.getFuelConsumptionRate,
                          altitude := sys.state.altitude + strat.getAltitudeIncrement,
                          speed := sys.state.speed + strat.getSpeedIncrement,
                          status := MissionStatus.ORBIT_ACHIEVED } },
            StepOutcome.halt)) ∨
       (¬ sys.state.fuel - strat.getFuelConsumptionRate ≤ 0 ∧
        ¬ (ORBIT_ALTITUDE ≤ sys.state.altitude + strat.getAltitudeIncrement ∧
           MIN_FUEL_FOR_ORBIT ≤ sys.state.fuel - strat.getFuelConsumptionRate) ∧
        strat.shouldSeparate (sys.state.fuel - strat.getFuelConsumptionRate) = true ∧
        ((∃ strat2, StageFactory.createStage (sys.state.stage + 1) = Except.ok strat2 ∧
           RocketSystem.updateFlightParameters sys =
             ({ state := { sys.state with
                            stage := sys.state.stage + 1,
                            fuel := sys.state.fuel - strat.getFuelConsumptionRate,
                            altitude := sys.state.altitude + strat.getAltitudeIncrement,
                            speed := sys.state.speed + strat.getSpeedIncrement },
                currentStageStrategy := some strat2 },
               StepOutcome.cont)) ∨
         (∃ e, StageFactory.createStage (sys.state.stage + 1) = Except.error e ∧
           RocketSystem.updateFlightParameters sys =
             ({ state := { sys.state with
                            stage := sys.state.stage + 1,
                            fuel := sys.state.fuel - strat.getFuelConsumptionRate,
                            altitude := sys.state.altitude + strat.getAltitudeIncrement,
                            speed := sys.state.speed + strat.getSpeedIncrement },
                currentStageStrategy := some strat },
               StepOutcome.err e)))) ∨
       (¬ sys.state.fuel - strat.getFuelConsumptionRate ≤ 0 ∧
        ¬ (ORBIT_ALTITUDE ≤ sys.state.altitude + strat.getAltitudeIncrement ∧
           MIN_FUEL_FOR_ORBIT ≤ sys.state.fuel - strat.getFuelConsumptionRate) ∧
        ¬ strat.shouldSeparate (sys.state.fuel - strat.getFuelConsumptionRate) = true ∧
        RocketSystem.updateFlightParameters sys =
          ({ sys with
              state := { sys.state with
                          fuel := sys.state.fuel - strat.getFuelConsumptionRate,
                          altitude := sys.state.altitude + strat.getAltitudeIncrement,
                          speed := sys.state.speed + strat.getSpeedIncrement } },
            StepOutcome.cont))) := by
  obtain ⟨st, sOpt⟩ := sys
  cases sOpt with
  | none => exact Or.inl ⟨rfl, rfl⟩
  | some strat =>
    refine Or.inr ⟨strat, rfl, ?_⟩
    unfold RocketSystem.updateFlightParameters
    dsimp only
    split_ifs with h1 h2 h3
    · exact Or.inl ⟨h1, rfl⟩
    · exact Or.inr (Or.inl ⟨h1, h2, rfl⟩)
    · refine Or.inr (Or.inr (Or.inl ⟨h1, h2, h3, ?_⟩))
      cases hcs : StageFactory.createStage (st.stage + 1) with
      | ok strat2 =>
        refine Or.inl ⟨strat2, rfl, ?_⟩
        unfold RocketSystem.separateStage
        dsimp only
        rw [hcs]
      | error e =>
        refine Or.inr ⟨e, rfl, ?_⟩
        unfold RocketSystem.separateStage
        dsimp only
        rw [hcs]
    · exact Or.inr (Or.inr (Or.inr ⟨h1, h2, h3, rfl⟩))

theorem updateFlightParameters_fuel (sys : RocketSystem) (h0 : 0 ≤ sys.state.fuel) :
    (RocketSystem.updateFlightParameters sys).1.state.fuel ≤ sys.state.fuel ∧
    0 ≤ (RocketSystem.updateFlightParameters sys).1.state.fuel ∧
    (sys.state.fuel ≤ 100 → (RocketSystem.updateFlightParameters sys).1.state.fuel ≤ 100) := by
  rcases updateFlightParameters_cases sys with ⟨hs, heq⟩ | ⟨strat, hs, hcase⟩
  · rw [heq]
    exact ⟨le_refl _, h0, fun h => h⟩
  · have hrate := rate_pos strat
    rcases hcase with ⟨h1, heq⟩ | ⟨h1, horb, heq⟩ |
        ⟨h1, horb, hsep, ⟨strat2, hcs, heq⟩ | ⟨e, hcs, heq⟩⟩ | ⟨h1, horb, hsep, heq⟩ <;>
      rw [heq] <;> dsimp only <;>
      exact ⟨by linarith, by linarith, fun hle => by linarith⟩

theorem updateFlightParameters_altSpeed (sys : RocketSystem) :
    sys.state.altitude ≤ (RocketSystem.updateFlightParameters sys).1.state.altitude ∧
    sys.state.speed ≤ (RocketSystem.updateFlightParameters sys).1.state.speed := by
  rcases updateFlightParameters_cases sys with ⟨hs, heq⟩ | ⟨strat, hs, hcase⟩
  · rw [heq]
    exact ⟨le_refl _, le_refl _⟩
  · have ha := altitudeIncrement_nonneg strat
    have hv := speedIncrement_nonneg strat
    rcases hcase with ⟨h1, heq⟩ | ⟨h1, horb, heq⟩ |
        ⟨h1, horb, hsep, ⟨strat2, hcs, heq⟩ | ⟨e, hcs, heq⟩⟩ | ⟨h1, horb, hsep, heq⟩ <;>
      rw [heq] <;> dsimp only <;> exact ⟨by linarith, by linarith⟩

theorem updateFlightParameters_cont (sys sys' : RocketSystem)
    (h : RocketSystem.updateFlightParameters sys = (sys', StepOutcome.cont)) :
    ∃ strat, sys.currentStageStrategy = some strat ∧
      sys'.state.altitude = sys.state.altitude + strat.getAltitudeIncrement ∧
      sys'.state.speed = sys.state.speed + strat.getSpeedIncrement ∧
      sys'.state.fuel = sys.state.fuel - strat.getFuelConsumptionRate := by
  rcases updateFlightParameters_cases sys with ⟨hs, heq⟩ | ⟨strat, hs, hcase⟩
  · rw [heq] at h
    simp at h
  · rcases hcase with ⟨h1, heq⟩ | ⟨h1, horb, heq⟩ |
        ⟨h1, horb, hsep, ⟨strat2, hcs, heq⟩ | ⟨e, hcs, heq⟩⟩ | ⟨h1, horb, hsep, heq⟩ <;>
      rw [heq] at h
    · simp at h
    · simp at h
    · injection h with h1x h2x
      subst h1x
      exact ⟨strat, hs, rfl, rfl, rfl⟩
    · simp at h
    · injection h with h1x h2x
      subst h1x
      exact ⟨strat, hs, rfl, rfl, rfl⟩

theorem updateFlightParameters_exhaustion (sys : RocketSystem) (strat : StageStrategy)
    (hs : sys.currentStageStrategy = some strat)
    (h1 : sys.state.fuel - strat.getFuelConsumptionRate ≤ 0) :
    RocketSystem.updateFlightParameters sys =
      ({ sys with
          state := { sys.state with
                      fuel := 0,
                      status := MissionStatus.MISSION_FAILED } },
        StepOutcome.halt) := by
  rcases updateFlightParameters_cases sys with ⟨hs2, heq⟩ | ⟨strat2, hs2, hcase⟩
  · rw [hs] at hs2
    cases hs2
  · rw [hs] at hs2
    injection hs2 with hss
    subst hss
    rcases hcase with ⟨h1b, heq⟩ | ⟨h1b, horb, heq⟩ |
        ⟨h1b, horb, hsep, hrest⟩ | ⟨h1b, horb, hsep, heq⟩
    · exact heq
    · exact absurd h1 h1b
    · exact absurd h1 h1b
    · exact absurd h1 h1b

theorem updateFlightParameters_failed_unchanged (sys sys' : RocketSystem)
    (h : RocketSystem.updateFlightParameters sys = (sys', StepOutcome.halt))
    (hst : sys'.state.status = MissionStatus.MISSION_FAILED) :
    sys'.state.altitude = sys.state.altitude ∧ sys'.state.speed = sys.state.speed := by
  rcases updateFlightParameters_cases sys with ⟨hs, heq⟩ | ⟨strat, hs, hcase⟩
  · rw [heq] at h
    injection h with h1x h2x
    subst h1x
    exact ⟨rfl, rfl⟩
  · rcases hcase with ⟨h1, heq⟩ | ⟨h1, horb, heq⟩ |
        ⟨h1, horb, hsep, ⟨strat2, hcs, heq⟩ | ⟨e, hcs, heq⟩⟩ | ⟨h1, horb, hsep, heq⟩ <;>
      rw [heq] at h
    · injection h with h1x h2x
      subst h1x
      exact ⟨rfl, rfl⟩
    · injection h with h1x h2x
      subst h1x
      simp at hst
    · simp at h
    · simp at h
    · simp at h

theorem stageInv_step (sys : RocketSystem) (hinv : StageInv sys) :
    StageInv (RocketSystem.updateFlightParameters sys).1 ∧
    ∀ e, (RocketSystem.updateFlightParameters sys).2 ≠ StepOutcome.err e := by
  rcases updateFlightParameters_cases sys with ⟨hs, heq⟩ | ⟨strat, hs, hcase⟩
  · rw [heq]
    exact ⟨hinv, by simp⟩
  · have hstage : (strat = StageStrategy.stage1 → sys.state.stage = 1) ∧
        (strat = StageStrategy.stage2 → sys.state.stage = 2) := by
      unfold StageInv at hinv
      rw [hs] at hinv
      cases strat
      · exact ⟨fun _ => hinv, fun hc => StageStrategy.noConfusion hc⟩
      · exact ⟨fun hc => StageStrategy.noConfusion hc, fun _ => hinv⟩
    rcases hcase with ⟨h1, heq⟩ | ⟨h1, horb, heq⟩ |
        ⟨h1, horb, hsep, ⟨strat2, hcs, heq⟩ | ⟨e, hcs, heq⟩⟩ | ⟨h1, horb, hsep, heq⟩ <;>
      rw [heq]
    · refine ⟨?_, by simp⟩
      unfold StageInv
      dsimp only
      rw [hs]
      cases strat
      · exact hstage.1 rfl
      · exact hstage.2 rfl
    · refine ⟨?_, by simp⟩
      unfold StageInv
      dsimp only
      rw [hs]
      cases strat
      · exact hstage.1 rfl
      · exact hstage.2 rfl
    · cases strat
      · have h2 : sys.state.stage = 1 := hstage.1 rfl
        rw [h2] at hcs
        norm_num [StageFactory.createStage] at hcs
        refine ⟨?_, by simp⟩
        unfold StageInv
        dsimp only
        rw [← hcs, h2]
        decide
      · exact absurd hsep (by simp [StageStrategy.shouldSeparate])
    · cases strat
      · have h2 : sys.state.stage = 1 := hstage.1 rfl
        rw [h2] at hcs
        norm_num [StageFactory.createStage] at hcs
        cases hcs
      · exact absurd hsep (by simp [StageStrategy.shouldSeparate])
    · refine ⟨?_, by simp⟩
      unfold StageInv
      dsimp only
      rw [hs]
      cases strat
      · exact hstage.1 rfl
      · exact hstage.2 rfl

theorem advanceTimeLoop_fuel (n : Nat) (sys : RocketSystem)
    (h0 : 0 ≤ sys.state.fuel) (h100 : sys.state.fuel ≤ 100) :
    (RocketSystem.advanceTimeLoop n sys).1.state.fuel ≤ sys.state.fuel ∧
    0 ≤ (RocketSystem.advanceTimeLoop n sys).1.state.fuel ∧
    (RocketSystem.advanceTimeLoop n sys).1.state.fuel ≤ 100 := by
  induction n generalizing sys with
  | zero => exact ⟨le_refl _, h0, h100⟩
  | succ n ih =>
    have hf := updateFlightParameters_fuel sys h0
    unfold RocketSystem.advanceTimeLoop
    cases hstep : RocketSystem.updateFlightParameters sys with
    | mk sys1 out =>
      rw [hstep] at hf
      cases out with
      | cont =>
        dsimp only
        have hrec := ih sys1 hf.2.1 (hf.2.2 h100)
        exact ⟨le_trans hrec.1 hf.1, hrec.2.1, hrec.2.2⟩
      | halt => exact ⟨hf.1, hf.2.1, hf.2.2 h100⟩
      | err e => exact ⟨hf.1, hf.2.1, hf.2.2 h100⟩

theorem advanceTimeLoop_altSpeed (n : Nat) (sys : RocketSystem) :
    sys.state.altitude ≤ (RocketSystem.advanceTimeLoop n sys).1.state.altitude ∧
    sys.state.speed ≤ (RocketSystem.advanceTimeLoop n sys).1.state.speed := by
  induction n generalizing sys with
  | zero => exact ⟨le_refl _, le_refl _⟩
  | succ n ih =>
    have ha := updateFlightParameters_altSpeed sys
    unfold RocketSystem.advanceTimeLoop
    cases hstep : RocketSystem.updateFlightParameters sys with
    | mk sys1 out =>
      rw [hstep] at ha
      cases out with
      | cont =>
        dsimp only
        have hrec := ih sys1
        exact ⟨le_trans ha.1 hrec.1, le_trans ha.2 hrec.2⟩
      | halt => exact ha
      | err e => exact ha

theorem advanceTimeLoop_stageInv (n : Nat) (sys : RocketSystem) (hinv : StageInv sys) :
    StageInv (RocketSystem.advanceTimeLoop n sys).1 ∧
    (RocketSystem.advanceTimeLoop n sys).2 = none := by
  induction n generalizing sys with
  | zero => exact ⟨hinv, rfl⟩
  | succ n ih =>
    have hstep2 := stageInv_step sys hinv
    unfold RocketSystem.advanceTimeLoop
    cases hstep : RocketSystem.updateFlightParameters sys with
    | mk sys1 out =>
      rw [hstep] at hstep2
      cases out with
      | cont => exact ih sys1 hstep2.1
      | halt => exact ⟨hstep2.1, rfl⟩
      | err e => exact absurd rfl (hstep2.2 e)

theorem reachable_stageInv (sys : RocketSystem) (h : Reachable sys) : StageInv sys := by
  induction h with
  | init => rfl
  | checks sys2 h2 ih => exact ih
  | liftoff sys2 h2 ih =>
    unfold RocketSystem.launch
    split_ifs with hr
    · rfl
    · exact ih
  | advance sys2 secs h2 ih =>
    unfold RocketSystem.advanceTime
    split_ifs with hr
    · exact (advanceTimeLoop_stageInv _ _ ih).1
    · exact ih

/-! ### Claim theorems -/

/-- C1: from a fresh `RocketSystem`, `performPreLaunchChecks` yields
READY_TO_LAUNCH; `launch` succeeds; `advanceTime 10` succeeds and leaves
fuel 90, altitude 100, speed 10000, stage 1, IN_FLIGHT; `advanceTime 60`
succeeds and halts at the 16th total second (still IN_FLIGHT after 5 of those
seconds, ORBIT_ACHIEVED after 6) with fuel 84, altitude 160, speed 16000 and
stage still 1; and, in any one-second step, when the orbit condition holds
after the increments the step halts with ORBIT_ACHIEVED and an unchanged stage
counter, regardless of the separation predicate (orbit is checked first). -/
theorem C1_launch_scenario :
    (RocketSystem.performPreLaunchChecks RocketSystem.initial).state.status =
      MissionStatus.READY_TO_LAUNCH ∧
    (RocketSystem.launch (RocketSystem.performPreLaunchChecks RocketSystem.initial)).2 = none ∧
    (RocketSystem.advanceTime 10
      (RocketSystem.launch (RocketSystem.performPreLaunchChecks RocketSystem.initial)).1).2 =
      none ∧
    (RocketSystem.advanceTime 10
      (RocketSystem.launch (RocketSystem.performPreLaunchChecks RocketSystem.initial)).1).1.state =
      { stage := 1, fuel := 90, altitude := 100, speed := 10000,
        status := MissionStatus.IN_FLIGHT } ∧
    (RocketSystem.advanceTime 60 (RocketSystem.advanceTime 10
      (RocketSystem.launch (RocketSystem.performPreLaunchChecks RocketSystem.initial)).1).1).2 =
      none ∧
    (RocketSystem.advanceTime 60 (RocketSystem.advanceTime 10
      (RocketSystem.launch
        (RocketSystem.performPreLaunchChecks RocketSystem.initial)).1).1).1.state =
      { stage := 1, fuel := 84, altitude := 160, speed := 16000,
        status := MissionStatus.ORBIT_ACHIEVED } ∧
    (RocketSystem.advanceTime 5 (RocketSystem.advanceTime 10
      (RocketSystem.launch
        (RocketSystem.performPreLaunchChecks RocketSystem.initial)).1).1).1.state.status =
      MissionStatus.IN_FLIGHT ∧
    (RocketSystem.advanceTime 6 (RocketSystem.advanceTime 10
      (RocketSystem.launch
        (RocketSystem.performPreLaunchChecks RocketSystem.initial)).1).1).1.state.status =
      MissionStatus.ORBIT_ACHIEVED ∧
    (∀ (sys : RocketSystem) (strat : StageStrategy),
      sys.currentStageStrategy = some strat →
      ¬ sys.state.fuel - strat.getFuelConsumptionRate ≤ 0 →
      ORBIT_ALTITUDE ≤ sys.state.altitude + strat.getAltitudeIncrement →
      MIN_FUEL_FOR_ORBIT ≤ sys.state.fuel - strat.getFuelConsumptionRate →
      (RocketSystem.updateFlightParameters sys).2 = StepOutcome.halt ∧
      (RocketSystem.updateFlightParameters sys).1.state.status =
        MissionStatus.ORBIT_ACHIEVED ∧
      (RocketSystem.updateFlightParameters sys).1.state.stage = sys.state.stage) := by
  refine ⟨rfl, rfl, ?_, ?_, ?_, ?_, ?_, ?_, ?_⟩
  · norm_num [RocketSystem.initial, RocketState.initial, RocketSystem.performPreLaunchChecks,
      RocketSystem.launch, RocketSystem.advanceTime, RocketSystem.advanceTimeLoop,
      RocketSystem.updateFlightParameters, RocketSystem.separateStage,
      StageStrategy.getFuelConsumptionRate, StageStrategy.getAltitudeIncrement,
      StageStrategy.getSpeedIncrement, StageStrategy.shouldSeparate,
      StageFactory.createStage, ORBIT_ALTITUDE, MIN_FUEL_FOR_ORBIT, Except.toOption]
  · norm_num [RocketSystem.initial, RocketState.initial, RocketSystem.performPreLaunchChecks,
      RocketSystem.launch, RocketSystem.advanceTime, RocketSystem.advanceTimeLoop,
      RocketSystem.updateFlightParameters, RocketSystem.separateStage,
      StageStrategy.getFuelConsumptionRate, StageStrategy.getAltitudeIncrement,
      StageStrategy.getSpeedIncrement, StageStrategy.shouldSeparate,
      StageFactory.createStage, ORBIT_ALTITUDE, MIN_FUEL_FOR_ORBIT, Except.toOption]
  · norm_num [RocketSystem.initial, RocketState.initial, RocketSystem.performPreLaunchChecks,
      RocketSystem.launch, RocketSystem.advanceTime, RocketSystem.advanceTimeLoop,
      RocketSystem.updateFlightParameters, RocketSystem.separateStage,
      StageStrategy.getFuelConsumptionRate, StageStrategy.getAltitudeIncrement,
      StageStrategy.getSpeedIncrement, StageStrategy.shouldSeparate,
      StageFactory.createStage, ORBIT_ALTITUDE, MIN_FUEL_FOR_ORBIT, Except.toOption]
  · norm_num [RocketSystem.initial, RocketState.initial, RocketSystem.performPreLaunchChecks,
      RocketSystem.launch, RocketSystem.advanceTime, RocketSystem.advanceTimeLoop,
      RocketSystem.updateFlightParameters, RocketSystem.separateStage,
      StageStrategy.getFuelConsumptionRate, StageStrategy.getAltitudeIncrement,
      StageStrategy.getSpeedIncrement, StageStrategy.shouldSeparate,
      StageFactory.createStage, ORBIT_ALTITUDE, MIN_FUEL_FOR_ORBIT, Except.toOption]
  · norm_num [RocketSystem.initial, RocketState.initial, RocketSystem.performPreLaunchChecks,
      RocketSystem.launch, RocketSystem.advanceTime, RocketSystem.advanceTimeLoop,
      RocketSystem.updateFlightParameters, RocketSystem.separateStage,
      StageStrategy.getFuelConsumptionRate, StageStrategy.getAltitudeIncrement,
      StageStrategy.getSpeedIncrement, StageStrategy.shouldSeparate,
      StageFactory.createStage, ORBIT_ALTITUDE, MIN_FUEL_FOR_ORBIT, Except.toOption]
  · norm_num [RocketSystem.initial, RocketState.initial, RocketSystem.performPreLaunchChecks,
      RocketSystem.launch, RocketSystem.advanceTime, RocketSystem.advanceTimeLoop,
      RocketSystem.updateFlightParameters, RocketSystem.separateStage,
      StageStrategy.getFuelConsumptionRate, StageStrategy.getAltitudeIncrement,
      StageStrategy.getSpeedIncrement, StageStrategy.shouldSeparate,
      StageFactory.createStage, ORBIT_ALTITUDE, MIN_FUEL_FOR_ORBIT, Except.toOption]
  · intro sys strat hsx h1 h2 h3
    rcases updateFlightParameters_cases sys with ⟨hs2, heq⟩ | ⟨strat2, hs2, hcase⟩
    · rw [hsx] at hs2
      cases hs2
    · rw [hsx] at hs2
      injection hs2 with hss
      subst hss
      rcases hcase with ⟨h1b, heq⟩ | ⟨h1b, horb, heq⟩ |
          ⟨h1b, horb, hsep, hrest⟩ | ⟨h1b, horb, hsep, heq⟩
      · exact absurd h1b h1
      · rw [heq]
        exact ⟨rfl, rfl, rfl⟩
      · exact absurd ⟨h2, h3⟩ horb
      · exact absurd ⟨h2, h3⟩ horb

/-- C1 witness: the orbit-before-separation tie-break applied to a concrete
state where, within the same second, both the orbit condition and the stage-1
separation threshold are met: the step records ORBIT_ACHIEVED and keeps
stage 1. -/
theorem C1_launch_scenario_witness :
    (RocketSystem.updateFlightParameters
        { state := { stage := 1, fuel := 31, altitude := 155, speed := 15000,
                     status := MissionStatus.IN_FLIGHT },
          currentStageStrategy := some StageStrategy.stage1 }).2 = StepOutcome.halt ∧
    (RocketSystem.updateFlightParameters
        { state := { stage := 1, fuel := 31, altitude := 155, speed := 15000,
                     status := MissionStatus.IN_FLIGHT },
          currentStageStrategy := some StageStrategy.stage1 }).1.state.status =
      MissionStatus.ORBIT_ACHIEVED ∧
    (RocketSystem.updateFlightParameters
        { state := { stage := 1, fuel := 31, altitude := 155, speed := 15000,
                     status := MissionStatus.IN_FLIGHT },
          currentStageStrategy := some StageStrategy.stage1 }).1.state.stage = 1 ∧
    StageStrategy.shouldSeparate StageStrategy.stage1
      ((31 : ℚ) - StageStrategy.getFuelConsumptionRate StageStrategy.stage1) = true := by
  have h := C1_launch_scenario.2.2.2.2.2.2.2.2
    { state := { stage := 1, fuel := 31, altitude := 155, speed := 15000,
                 status := MissionStatus.IN_FLIGHT },
      currentStageStrategy := some StageStrategy.stage1 }
    StageStrategy.stage1 rfl
    (by norm_num [StageStrategy.getFuelConsumptionRate])
    (by norm_num [StageStrategy.getAltitudeIncrement, ORBIT_ALTITUDE])
    (by norm_num [StageStrategy.getFuelConsumptionRate, MIN_FUEL_FOR_ORBIT])
  exact ⟨h.1, h.2.1, h.2.2,
    by norm_num [StageStrategy.shouldSeparate, StageStrategy.getFuelConsumptionRate]⟩

/-- C2 counterexample: `performPreLaunchChecks` has no status guard, so it is a
public operation that moves a state whose status is ORBIT_ACHIEVED to
READY_TO_LAUNCH — ORBIT_ACHIEVED is not terminal with respect to every public
operation, refuting the claim as stated. -/
theorem C2_terminal_counterexample :
    ({ state := { stage := 1, fuel := 84, altitude := 160, speed := 16000,
                  status := MissionStatus.ORBIT_ACHIEVED },
       currentStageStrategy := some StageStrategy.stage1 } : RocketSystem).state.status =
      MissionStatus.ORBIT_ACHIEVED ∧
    (RocketSystem.performPreLaunchChecks
        { state := { stage := 1, fuel := 84, altitude := 160, speed := 16000,
                     status := MissionStatus.ORBIT_ACHIEVED },
          currentStageStrategy := some StageStrategy.stage1 }).state.status =
      MissionStatus.READY_TO_LAUNCH ∧
    (RocketSystem.performPreLaunchChecks
        { state := { stage := 1, fuel := 84, altitude := 160, speed := 16000,
                     status := MissionStatus.ORBIT_ACHIEVED },
          currentStageStrategy := some StageStrategy.stage1 }).state.status ≠
      MissionStatus.ORBIT_ACHIEVED := by
  refine ⟨rfl, rfl, ?_⟩
  intro h
  cases h

/-- C2 (amended): ORBIT_ACHIEVED and MISSION_FAILED are terminal with respect
to `launch` and `advanceTime` — both fail with an invalid-state error and
leave the system unchanged — but `performPreLaunchChecks`, which never checks
the current status, moves even a terminal state to READY_TO_LAUNCH. -/
theorem C2_terminal_amended :
    ∀ sys : RocketSystem,
      (sys.state.status = MissionStatus.ORBIT_ACHIEVED ∨
       sys.state.status = MissionStatus.MISSION_FAILED) →
      RocketSystem.launch sys =
        (sys, some (SimError.invalidState ("Cannot launch: Pre-launch checks not completed"))) ∧
      (∀ seconds : Int,
        RocketSystem.advanceTime seconds sys =
          (sys, some (SimError.invalidState ("Rocket is not in flight")))) ∧
      (RocketSystem.performPreLaunchChecks sys).state.status =
        MissionStatus.READY_TO_LAUNCH := by
  intro sys h
  have hr : ¬ sys.state.status = MissionStatus.READY_TO_LAUNCH := by
    rcases h with h | h <;> rw [h] <;> intro hc <;> cases hc
  have hf : ¬ sys.state.status = MissionStatus.IN_FLIGHT := by
    rcases h with h | h <;> rw [h] <;> intro hc <;> cases hc
  refine ⟨?_, fun seconds => ?_, rfl⟩
  · unfold RocketSystem.launch
    rw [if_neg hr]
  · unfold RocketSystem.advanceTime
    rw [if_neg hf]

/-- C2 witness: the amended terminality applied to a concrete ORBIT_ACHIEVED
state. -/
theorem C2_terminal_amended_witness :
    RocketSystem.launch
        { state := { stage := 1, fuel := 84, altitude := 160, speed := 16000,
                     status := MissionStatus.ORBIT_ACHIEVED },
          currentStageStrategy := some StageStrategy.stage1 } =
      ({ state := { stage := 1, fuel := 84, altitude := 160, speed := 16000,
                    status := MissionStatus.ORBIT_ACHIEVED },
         currentStageStrategy := some StageStrategy.stage1 },
       some (SimError.invalidState ("Cannot launch: Pre-launch checks not completed"))) ∧
    (∀ seconds : Int,
      RocketSystem.advanceTime seconds
          { state := { stage := 1, fuel := 84, altitude := 160, speed := 16000,
                       status := MissionStatus.ORBIT_ACHIEVED },
            currentStageStrategy := some StageStrategy.stage1 } =
        ({ state := { stage := 1, fuel := 84, altitude := 160, speed := 16000,
                      status := MissionStatus.ORBIT_ACHIEVED },
           currentStageStrategy := some StageStrategy.stage1 },
         some (SimError.invalidState ("Rocket is not in flight")))) ∧
    (RocketSystem.performPreLaunchChecks
        { state := { stage := 1, fuel := 84, altitude := 160, speed := 16000,
                     status := MissionStatus.ORBIT_ACHIEVED },
          currentStageStrategy := some StageStrategy.stage1 }).state.status =
      MissionStatus.READY_TO_LAUNCH :=
  C2_terminal_amended
    { state := { stage := 1, fuel := 84, altitude := 160, speed := 16000,
                 status := MissionStatus.ORBIT_ACHIEVED },
      currentStageStrategy := some StageStrategy.stage1 }
    (Or.inl rfl)

/-- C3: whenever the status is not IN_FLIGHT, `advanceTime` throws the
invalid-state error "Rocket is not in flight" and returns the system
completely unchanged, for every `seconds` argument. -/
theorem C3_advanceTime_guard :
    ∀ (sys : RocketSystem) (seconds : Int),
      sys.state.status ≠ MissionStatus.IN_FLIGHT →
      RocketSystem.advanceTime seconds sys =
        (sys, some (SimError.invalidState ("Rocket is not in flight"))) := by
  intro sys seconds h
  unfold RocketSystem.advanceTime
  rw [if_neg h]

/-- C3 witness: `advanceTime` rejected on a concrete ORBIT_ACHIEVED state and
on a concrete MISSION_FAILED state, leaving each unchanged. -/
theorem C3_advanceTime_guard_witness :
    RocketSystem.advanceTime 1000
        { state := { stage := 1, fuel := 84, altitude := 160, speed := 16000,
                     status := MissionStatus.ORBIT_ACHIEVED },
          currentStageStrategy := some StageStrategy.stage1 } =
      ({ state := { stage := 1, fuel := 84, altitude := 160, speed := 16000,
                    status := MissionStatus.ORBIT_ACHIEVED },
         currentStageStrategy := some StageStrategy.stage1 },
       some (SimError.invalidState ("Rocket is not in flight"))) ∧
    RocketSystem.advanceTime 7
        { state := { stage := 2, fuel := 0, altitude := 300, speed := 20000,
                     status := MissionStatus.MISSION_FAILED },
          currentStageStrategy := some StageStrategy.stage2 } =
      ({ state := { stage := 2, fuel := 0, altitude := 300, speed := 20000,
                    status := MissionStatus.MISSION_FAILED },
         currentStageStrategy := some StageStrategy.stage2 },
       some (SimError.invalidState ("Rocket is not in flight"))) :=
  ⟨C3_advanceTime_guard _ 1000 (by intro h; cases h),
   C3_advanceTime_guard _ 7 (by intro h; cases h)⟩

/-- C4: fuel is monotonically non-increasing on every one-second step from a
non-negative fuel level; across any `advanceTime` call from fuel in [0,100]
it stays in [0,100] and does not increase; and on a step where the decremented
fuel is ≤ 0 it is clamped to exactly 0 with status MISSION_FAILED. -/
theorem C4_fuel_invariant :
    (∀ sys : RocketSystem, 0 ≤ sys.state.fuel →
      (RocketSystem.updateFlightParameters sys).1.state.fuel ≤ sys.state.fuel) ∧
    (∀ (seconds : Int) (sys : RocketSystem),
      0 ≤ sys.state.fuel → sys.state.fuel ≤ 100 →
      (RocketSystem.advanceTime seconds sys).1.state.fuel ≤ sys.state.fuel ∧
      0 ≤ (RocketSystem.advanceTime seconds sys).1.state.fuel ∧
      (RocketSystem.advanceTime seconds sys).1.state.fuel ≤ 100) ∧
    (∀ (sys : RocketSystem) (strat : StageStrategy),
      sys.currentStageStrategy = some strat →
      sys.state.fuel - strat.getFuelConsumptionRate ≤ 0 →
      (RocketSystem.updateFlightParameters sys).1.state.fuel = 0 ∧
      (RocketSystem.updateFlightParameters sys).1.state.status =
        MissionStatus.MISSION_FAILED) := by
  refine ⟨fun sys h0 => (updateFlightParameters_fuel sys h0).1, ?_, ?_⟩
  · intro seconds sys h0 h100
    unfold RocketSystem.advanceTime
    split_ifs with hs
    · exact advanceTimeLoop_fuel seconds.toNat sys h0 h100
    · exact ⟨le_refl _, h0, h100⟩
  · intro sys strat hs h1
    rw [updateFlightParameters_exhaustion sys strat hs h1]
    exact ⟨rfl, rfl⟩

/-- C4 witness: the `advanceTime` fuel bounds on a fresh in-flight system for
3 seconds, and the clamp-to-zero-with-MISSION_FAILED behaviour on a concrete
state whose fuel (0.5) is below the stage-1 burn rate. -/
theorem C4_fuel_invariant_witness :
    ((RocketSystem.advanceTime 3
        { state := { stage := 1, fuel := 100, altitude := 0, speed := 0,
                     status := MissionStatus.IN_FLIGHT },
          currentStageStrategy := some StageStrategy.stage1 }).1.state.fuel ≤
      ({ state := { stage := 1, fuel := 100, altitude := 0, speed := 0,
                    status := MissionStatus.IN_FLIGHT },
         currentStageStrategy := some StageStrategy.stage1 } : RocketSystem).state.fuel ∧
     0 ≤ (RocketSystem.advanceTime 3
        { state := { stage := 1, fuel := 100, altitude := 0, speed := 0,
                     status := MissionStatus.IN_FLIGHT },
          currentStageStrategy := some StageStrategy.stage1 }).1.state.fuel ∧
     (RocketSystem.advanceTime 3
        { state := { stage := 1, fuel := 100, altitude := 0, speed := 0,
                     status := MissionStatus.IN_FLIGHT },
          currentStageStrategy := some StageStrategy.stage1 }).1.state.fuel ≤ 100) ∧
    ((RocketSystem.updateFlightParameters
        { state := { stage := 1, fuel := 0.5, altitude := 5, speed := 500,
                     status := MissionStatus.IN_FLIGHT },
          currentStageStrategy := some StageStrategy.stage1 }).1.state.fuel = 0 ∧
     (RocketSystem.updateFlightParameters
        { state := { stage := 1, fuel := 0.5, altitude := 5, speed := 500,
                     status := MissionStatus.IN_FLIGHT },
          currentStageStrategy := some StageStrategy.stage1 }).1.state.status =
       MissionStatus.MISSION_FAILED) :=
  ⟨C4_fuel_invariant.2.1 3
      { state := { stage := 1, fuel := 100, altitude := 0, speed := 0,
                   status := MissionStatus.IN_FLIGHT },
        currentStageStrategy := some StageStrategy.stage1 }
      (by norm_num) (by norm_num),
   C4_fuel_invariant.2.2
      { state := { stage := 1, fuel := 0.5, altitude := 5, speed := 500,
                   status := MissionStatus.IN_FLIGHT },
        currentStageStrategy := some StageStrategy.stage1 }
      StageStrategy.stage1 rfl
      (by norm_num [StageStrategy.getFuelConsumptionRate])⟩

/-- C5: altitude and speed never decrease on any step and across any
`advanceTime` call; a step that continues adds exactly the active stage's
altitude and speed increments; and a step that halts with MISSION_FAILED
(fuel exhaustion) leaves altitude and speed unchanged. -/
theorem C5_altitude_speed_invariant :
    (∀ sys : RocketSystem,
      sys.state.altitude ≤ (RocketSystem.updateFlightParameters sys).1.state.altitude ∧
      sys.state.speed ≤ (RocketSystem.updateFlightParameters sys).1.state.speed) ∧
    (∀ (seconds : Int) (sys : RocketSystem),
      sys.state.altitude ≤ (RocketSystem.advanceTime seconds sys).1.state.altitude ∧
      sys.state.speed ≤ (RocketSystem.advanceTime seconds sys).1.state.speed) ∧
    (∀ sys sys' : RocketSystem,
      RocketSystem.updateFlightParameters sys = (sys', StepOutcome.cont) →
      ∃ strat, sys.currentStageStrategy = some strat ∧
        sys'.state.altitude = sys.state.altitude + strat.getAltitudeIncrement ∧
        sys'.state.speed = sys.state.speed + strat.getSpeedIncrement) ∧
    (∀ sys sys' : RocketSystem,
      RocketSystem.updateFlightParameters sys = (sys', StepOutcome.halt) →
      sys'.state.status = MissionStatus.MISSION_FAILED →
      sys'.state.altitude = sys.state.altitude ∧ sys'.state.speed = sys.state.speed) := by
  refine ⟨updateFlightParameters_altSpeed, ?_, ?_, updateFlightParameters_failed_unchanged⟩
  · intro seconds sys
    unfold RocketSystem.advanceTime
    split_ifs with hs
    · exact advanceTimeLoop_altSpeed seconds.toNat sys
    · exact ⟨le_refl _, le_refl _⟩
  · intro sys sys' h
    obtain ⟨strat, hs, ha, hv, -⟩ := updateFlightParameters_cont sys sys' h
    exact ⟨strat, hs, ha, hv⟩

/-- C5 witness: the exact-increment property on a concrete continuing step
(stage 1: +10 km, +1000 km/h) and the unchanged-altitude/speed property on a
concrete fuel-exhaustion step. -/
theorem C5_altitude_speed_invariant_witness :
    (∃ strat,
      ({ state := { stage := 1, fuel := 100, altitude := 0, speed := 0,
                    status := MissionStatus.IN_FLIGHT },
         currentStageStrategy := some StageStrategy.stage1 } :
           RocketSystem).currentStageStrategy = some strat ∧
      ({ state := { stage := 1, fuel := 99, altitude := 10, speed := 1000,
                    status := MissionStatus.IN_FLIGHT },
         currentStageStrategy := some StageStrategy.stage1 } :
           RocketSystem).state.altitude =
        ({ state := { stage := 1, fuel := 100, altitude := 0, speed := 0,
                      status := MissionStatus.IN_FLIGHT },
           currentStageStrategy := some StageStrategy.stage1 } :
             RocketSystem).state.altitude + strat.getAltitudeIncrement ∧
      ({ state := { stage := 1, fuel := 99, altitude := 10, speed := 1000,
                    status := MissionStatus.IN_FLIGHT },
         currentStageStrategy := some StageStrategy.stage1 } :
           RocketSystem).state.speed =
        ({ state := { stage := 1, fuel := 100, altitude := 0, speed := 0,
                      status := MissionStatus.IN_FLIGHT },
           currentStageStrategy := some StageStrategy.stage1 } :
             RocketSystem).state.speed + strat.getSpeedIncrement) ∧
    (({ state := { stage := 1, fuel := 0, altitude := 5, speed := 500,
                   status := MissionStatus.MISSION_FAILED },
        currentStageStrategy := some StageStrategy.stage1 } :
          RocketSystem).state.altitude =
      ({ state := { stage := 1, fuel := 0.5, altitude := 5, speed := 500,
                    status := MissionStatus.IN_FLIGHT },
         currentStageStrategy := some StageStrategy.stage1 } :
           RocketSystem).state.altitude ∧
     ({ state := { stage := 1, fuel := 0, altitude := 5, speed := 500,
                   status := MissionStatus.MISSION_FAILED },
        currentStageStrategy := some StageStrategy.stage1 } :
          RocketSystem).state.speed =
      ({ state := { stage := 1, fuel := 0.5, altitude := 5, speed := 500,
                    status := MissionStatus.IN_FLIGHT },
         currentStageStrategy := some StageStrategy.stage1 } :
           RocketSystem).state.speed) :=
  ⟨C5_altitude_speed_invariant.2.2.1
      { state := { stage := 1, fuel := 100, altitude := 0, speed := 0,
                   status := MissionStatus.IN_FLIGHT },
        currentStageStrategy := some StageStrategy.stage1 }
      { state := { stage := 1, fuel := 99, altitude := 10, speed := 1000,
                   status := MissionStatus.IN_FLIGHT },
        currentStageStrategy := some StageStrategy.stage1 }
      (by norm_num [RocketSystem.updateFlightParameters, RocketSystem.separateStage,
        StageStrategy.getFuelConsumptionRate, StageStrategy.getAltitudeIncrement,
        StageStrategy.getSpeedIncrement, StageStrategy.shouldSeparate,
        StageFactory.createStage, ORBIT_ALTITUDE, MIN_FUEL_FOR_ORBIT]),
   C5_altitude_speed_invariant.2.2.2
      { state := { stage := 1, fuel := 0.5, altitude := 5, speed := 500,
                   status := MissionStatus.IN_FLIGHT },
        currentStageStrategy := some StageStrategy.stage1 }
      { state := { stage := 1, fuel := 0, altitude := 5, speed := 500,
                   status := MissionStatus.MISSION_FAILED },
        currentStageStrategy := some StageStrategy.stage1 }
      (by norm_num [RocketSystem.updateFlightParameters, RocketSystem.separateStage,
        StageStrategy.getFuelConsumptionRate, StageStrategy.getAltitudeIncrement,
        StageStrategy.getSpeedIncrement, StageStrategy.shouldSeparate,
        StageFactory.createStage, ORBIT_ALTITUDE, MIN_FUEL_FOR_ORBIT])
      rfl⟩

/-- C6: `launch` from any status other than READY_TO_LAUNCH throws the
invalid-state error and returns the system unchanged; from READY_TO_LAUNCH it
sets stage to 1, status to IN_FLIGHT, and installs the stage-1 strategy. -/
theorem C6_launch_guard :
    (∀ sys : RocketSystem, sys.state.status ≠ MissionStatus.READY_TO_LAUNCH →
      RocketSystem.launch sys =
        (sys, some (SimError.invalidState ("Cannot launch: Pre-launch checks not completed")))) ∧
    (∀ sys : RocketSystem, sys.state.status = MissionStatus.READY_TO_LAUNCH →
      RocketSystem.launch sys =
        ({ state := { sys.state with stage := 1, status := MissionStatus.IN_FLIGHT },
           currentStageStrategy := some StageStrategy.stage1 }, none)) := by
  constructor
  · intro sys h
    unfold RocketSystem.launch
    rw [if_neg h]
  · intro sys h
    unfold RocketSystem.launch
    rw [if_pos h]
    norm_num [StageFactory.createStage, Except.toOption]

/-- C6 witness: `launch` rejected on a fresh PRE_LAUNCH system (unchanged) and
successful from a concrete READY_TO_LAUNCH state. -/
theorem C6_launch_guard_witness :
    RocketSystem.launch RocketSystem.initial =
      (RocketSystem.initial,
       some (SimError.invalidState ("Cannot launch: Pre-launch checks not completed"))) ∧
    RocketSystem.launch
        { state := { stage := 0, fuel := 100, altitude := 0, speed := 0,
                     status := MissionStatus.READY_TO_LAUNCH },
          currentStageStrategy := none } =
      ({ state := { ({ state := { stage := 0, fuel := 100, altitude := 0, speed := 0,
                                  status := MissionStatus.READY_TO_LAUNCH },
                       currentStageStrategy := none } : RocketSystem).state with
                    stage := 1, status := MissionStatus.IN_FLIGHT },
         currentStageStrategy := some StageStrategy.stage1 }, none) :=
  ⟨C6_launch_guard.1 RocketSystem.initial (by intro h; cases h),
   C6_launch_guard.2
      { state := { stage := 0, fuel := 100, altitude := 0, speed := 0,
                   status := MissionStatus.READY_TO_LAUNCH },
        currentStageStrategy := none }
      rfl⟩

/-- C7: `CommandInvoker.executeCommand` with a failing `canExecute` throws an
invalid-state error naming the command's description and leaves both the
history and the rocket system untouched; with a passing `canExecute` it
executes and appends the command at the end of the history exactly when
`execute` did not throw, re-throwing the error (without recording) otherwise;
and `getHistory` returns the stored history. -/
theorem C7_invoker :
    (∀ (inv : CommandInvoker) (sys : RocketSystem) (c : Command),
      c.canExecute sys = false →
      CommandInvoker.executeCommand inv sys c =
        (inv, sys,
         some (SimError.invalidState ("Cannot execute command: " ++ c.getDescription)))) ∧
    (∀ (inv : CommandInvoker) (sys : RocketSystem) (c : Command) (sys' : RocketSystem),
      c.canExecute sys = true → c.execute sys = (sys', none) →
      CommandInvoker.executeCommand inv sys c =
        ({ commandHistory := inv.commandHistory ++ [c] }, sys', none)) ∧
    (∀ (inv : CommandInvoker) (sys : RocketSystem) (c : Command) (sys' : RocketSystem)
        (e : SimError),
      c.canExecute sys = true → c.execute sys = (sys', some e) →
      CommandInvoker.executeCommand inv sys c = (inv, sys', some e)) ∧
    (∀ inv : CommandInvoker, CommandInvoker.getHistory inv = inv.commandHistory) := by
  refine ⟨?_, ?_, ?_, fun inv => rfl⟩
  · intro inv sys c h
    unfold CommandInvoker.executeCommand
    rw [h]
    simp
  · intro inv sys c sys' hcan hex
    unfold CommandInvoker.executeCommand
    rw [hcan, hex]
    simp
  · intro inv sys c sys' e hcan hex
    unfold CommandInvoker.executeCommand
    rw [hcan, hex]
    simp

/-- C7 witness: a `LaunchCommand` on a fresh (PRE_LAUNCH) system is rejected
with the described invalid-state error, appending nothing and leaving the
system untouched; and a `StartChecksCommand` on the fresh system executes and
is appended to the history. -/
theorem C7_invoker_witness :
    CommandInvoker.executeCommand { commandHistory := [] } RocketSystem.initial
        Command.launchCommand =
      ({ commandHistory := [] }, RocketSystem.initial,
       some (SimError.invalidState
         ("Cannot execute command: " ++ Command.getDescription Command.launchCommand))) ∧
    CommandInvoker.executeCommand { commandHistory := [] } RocketSystem.initial
        Command.startChecksCommand =
      ({ commandHistory := ([] : List Command) ++ [Command.startChecksCommand] },
       RocketSystem.performPreLaunchChecks RocketSystem.initial, none) ∧
    CommandInvoker.getHistory { commandHistory := [Command.startChecksCommand] } =
      [Command.startChecksCommand] :=
  ⟨C7_invoker.1 { commandHistory := [] } RocketSystem.initial Command.launchCommand rfl,
   C7_invoker.2.1 { commandHistory := [] } RocketSystem.initial Command.startChecksCommand
     (RocketSystem.performPreLaunchChecks RocketSystem.initial) rfl rfl,
   C7_invoker.2.2.2 { commandHistory := [Command.startChecksCommand] }⟩

/-- C8: `StageFactory.createStage` returns the stage-1 strategy (burn 1 %/s,
+10 km/s, +1000 km/h per s, separates exactly when fuel ≤ 30) for 1, the
stage-2 strategy (burn 0.5 %/s, +15 km/s, +800 km/h per s, never separates)
for 2, and throws the domain error "Unknown stage: n" for every other integer;
it is a pure function of its argument. -/
theorem C8_stage_factory :
    StageFactory.createStage 1 = Except.ok StageStrategy.stage1 ∧
    StageFactory.createStage 2 = Except.ok StageStrategy.stage2 ∧
    StageStrategy.getFuelConsumptionRate StageStrategy.stage1 = 1 ∧
    StageStrategy.getAltitudeIncrement StageStrategy.stage1 = 10 ∧
    StageStrategy.getSpeedIncrement StageStrategy.stage1 = 1000 ∧
    (∀ fuel : ℚ, StageStrategy.shouldSeparate StageStrategy.stage1 fuel = decide (fuel ≤ 30)) ∧
    StageStrategy.getFuelConsumptionRate StageStrategy.stage2 = 0.5 ∧
    StageStrategy.getAltitudeIncrement StageStrategy.stage2 = 15 ∧
    StageStrategy.getSpeedIncrement StageStrategy.stage2 = 800 ∧
    (∀ fuel : ℚ, StageStrategy.shouldSeparate StageStrategy.stage2 fuel = false) ∧
    StageStrategy.stage1 ≠ StageStrategy.stage2 ∧
    (∀ stageNumber : Int, stageNumber ≠ 1 → stageNumber ≠ 2 →
      StageFactory.createStage stageNumber =
        Except.error (SimError.simulator ("Unknown stage: " ++ toString stageNumber))) := by
  refine ⟨rfl, rfl, rfl, rfl, rfl, fun fuel => rfl, rfl, rfl, rfl, fun fuel => rfl,
    ?_, ?_⟩
  · intro h
    cases h
  · intro stageNumber h1 h2
    unfold StageFactory.createStage
    rw [if_neg h1, if_neg h2]

/-- C8 witness: `createStage 3` (and `createStage 0`) fail with the domain
error. -/
theorem C8_stage_factory_witness :
    StageFactory.createStage 3 =
      Except.error (SimError.simulator ("Unknown stage: " ++ toString (3 : Int))) ∧
    StageFactory.createStage 0 =
      Except.error (SimError.simulator ("Unknown stage: " ++ toString (0 : Int))) ∧
    StageFactory.createStage (-1) =
      Except.error (SimError.simulator ("Unknown stage: " ++ toString (-1 : Int))) :=
  ⟨C8_stage_factory.2.2.2.2.2.2.2.2.2.2.2 3 (by decide) (by decide),
   C8_stage_factory.2.2.2.2.2.2.2.2.2.2.2 0 (by decide) (by decide),
   C8_stage_factory.2.2.2.2.2.2.2.2.2.2.2 (-1) (by decide) (by decide)⟩

/-- C9: on a one-second step of an IN_FLIGHT system at stage 1 with the
stage-1 strategy, when the decremented fuel lies in (0, 30] and the orbit
condition fails after the increments, the stage counter goes from 1 to 2 and
the stage-2 strategy is installed within that same step; the step continues
(does not halt), and the increments applied in that step are still the
stage-1 rates (fuel −1, altitude +10, speed +1000), so the stage-2 rates only
take effect from the following second. -/
theorem C9_stage_separation :
    ∀ sys : RocketSystem,
      sys.currentStageStrategy = some StageStrategy.stage1 →
      sys.state.stage = 1 →
      sys.state.status = MissionStatus.IN_FLIGHT →
      0 < sys.state.fuel - 1 →
      sys.state.fuel - 1 ≤ 30 →
      ¬ (ORBIT_ALTITUDE ≤ sys.state.altitude + 10 ∧
         MIN_FUEL_FOR_ORBIT ≤ sys.state.fuel - 1) →
      RocketSystem.updateFlightParameters sys =
        ({ state := { sys.state with
              stage := 2,
              fuel := sys.state.fuel - 1,
              altitude := sys.state.altitude + 10,
              speed := sys.state.speed + 1000 },
           currentStageStrategy := some StageStrategy.stage2 }, StepOutcome.cont) := by
  intro sys hs hstg hstat hf0 hf30 horb2
  rcases updateFlightParameters_cases sys with ⟨hs2, heq⟩ | ⟨strat2, hs2, hcase⟩
  · rw [hs] at hs2
    cases hs2
  · rw [hs] at hs2
    injection hs2 with hss
    subst hss
    rcases hcase with ⟨h1b, heq⟩ | ⟨h1b, horb, heq⟩ |
        ⟨h1b, horb, hsep, ⟨strat3, hcs, heq⟩ | ⟨e, hcs, heq⟩⟩ | ⟨h1b, horb, hsep, heq⟩
    · norm_num [StageStrategy.getFuelConsumptionRate] at h1b
      linarith
    · refine absurd ?_ horb2
      norm_num [StageStrategy.getFuelConsumptionRate,
        StageStrategy.getAltitudeIncrement] at horb ⊢
      exact horb
    · rw [hstg] at hcs
      norm_num [StageFactory.createStage] at hcs
      subst hcs
      rw [heq, hstg]
      norm_num [StageStrategy.getFuelConsumptionRate, StageStrategy.getAltitudeIncrement,
        StageStrategy.getSpeedIncrement]
    · rw [hstg] at hcs
      norm_num [StageFactory.createStage] at hcs
      cases hcs
    · refine absurd ?_ hsep
      norm_num [StageStrategy.shouldSeparate, StageStrategy.getFuelConsumptionRate]
      linarith

/-- C9 witness: the separation step applied to a concrete state (fuel 31,
altitude 100): the step yields stage 2, the stage-2 strategy, fuel 30,
altitude 110, speed 11000, still IN_FLIGHT, outcome `cont`. -/
theorem C9_stage_separation_witness :
    RocketSystem.updateFlightParameters
        { state := { stage := 1, fuel := 31, altitude := 100, speed := 10000,
                     status := MissionStatus.IN_FLIGHT },
          currentStageStrategy := some StageStrategy.stage1 } =
      ({ state := { ({ state := { stage := 1, fuel := 31, altitude := 100, speed := 10000,
                                  status := MissionStatus.IN_FLIGHT },
                       currentStageStrategy := some StageStrategy.stage1 } :
                         RocketSystem).state with
                    stage := 2, fuel := (31 : ℚ) - 1, altitude := (100 : ℚ) + 10,
                    speed := (10000 : ℚ) + 1000 },
         currentStageStrategy := some StageStrategy.stage2 }, StepOutcome.cont) :=
  C9_stage_separation
    { state := { stage := 1, fuel := 31, altitude := 100, speed := 10000,
                 status := MissionStatus.IN_FLIGHT },
      currentStageStrategy := some StageStrategy.stage1 }
    rfl rfl rfl (by norm_num) (by norm_num)
    (by norm_num [ORBIT_ALTITUDE, MIN_FUEL_FOR_ORBIT])

/-- C10: every state reachable from the fresh system through the public
operations has stage ≤ 2; from such a state a flight step can never end in
the thrown-exception outcome, and `advanceTime` can never surface the internal
"Unknown stage" `SimulatorException` — its only error is the invalid-state
guard. -/
theorem C10_stage_bound :
    ∀ sys : RocketSystem, Reachable sys →
      sys.state.stage ≤ 2 ∧
      (∀ (sys' : RocketSystem) (e : SimError),
        RocketSystem.updateFlightParameters sys ≠ (sys', StepOutcome.err e)) ∧
      (∀ (seconds : Int) (msg : String),
        (RocketSystem.advanceTime seconds sys).2 ≠ some (SimError.simulator msg)) := by
  intro sys h
  have hinv := reachable_stageInv sys h
  refine ⟨?_, ?_, ?_⟩
  · unfold StageInv at hinv
    cases hs : sys.currentStageStrategy with
    | none =>
      rw [hs] at hinv
      rw [hinv]
      decide
    | some strat =>
      rw [hs] at hinv
      cases strat
      · rw [hinv]
        decide
      · rw [hinv]
  · intro sys' e hne
    have hstep := (stageInv_step sys hinv).2 e
    rw [hne] at hstep
    exact hstep rfl
  · intro seconds msg
    unfold RocketSystem.advanceTime
    split_ifs with hf
    · rw [(advanceTimeLoop_stageInv seconds.toNat sys hinv).2]
      simp
    · simp

/-- C10 witness: the bound and error-freedom applied to the freshly
constructed system, which is reachable by definition. -/
theorem C10_stage_bound_witness :
    RocketSystem.initial.state.stage ≤ 2 ∧
    (∀ (sys' : RocketSystem) (e : SimError),
      RocketSystem.updateFlightParameters RocketSystem.initial ≠ (sys', StepOutcome.err e)) ∧
    (∀ (seconds : Int) (msg : String),
      (RocketSystem.advanceTime seconds RocketSystem.initial).2 ≠
        some (SimError.simulator msg)) :=
  C10_stage_bound RocketSystem.initial Reachable.init
